import Mathlib

/-!
# EntityTracker

A shallow embedding of `importer/entitytracker.hpp`: the class template
`EntityTracker<TObject>` that keeps a previous and a current entity while the
importer scans a history file.

Modelling conventions

* `shared_ptr<TObject const>` is `Option TObject`: `none` is the empty (null)
  pointer, `some a` is a reference to the immutable object `a`.  The tracker
  never looks inside an object except through `id()`, so `TObject` may be read
  as the type of object handles; equality of `some a` and `some b` is then
  equality of references.
* `assert(c)` aborts the program when `c` is false (assertions are compiled
  in).  A call that aborts is `Except.error Fault.assertion_failed`;
  `operator->` on an empty pointer is `Except.error Fault.null_dereference`.
* A snapshot is an object of type `TObject`; feeding a snapshot `a` is
  `feed (some a)`.  The parameter of `feed` is a pointer, so `feed none`, the
  call with the empty pointer, is part of the model too.
* A member function that only reads the members is a function of the tracker
  state; a member function that writes them returns the new state.
-/

namespace Importer

/-- Abnormal terminations of a member function. -/
inductive Fault where
  /-- The condition of an `assert` was false. -/
  | assertion_failed
  /-- The arrow operator was applied to an empty pointer. -/
  | null_dereference
  deriving DecidableEq

/-- Results of calls can be compared: equality of `Except` values is decidable. -/
instance instDecidableEqExcept {ε α : Type} [DecidableEq ε] [DecidableEq α] :
    DecidableEq (Except ε α)
  | Except.ok a, Except.ok b =>
    if h : a = b then isTrue (by rw [h]) else isFalse (fun h1 => h (Except.ok.inj h1))
  | Except.error e, Except.error f =>
    if h : e = f then isTrue (by rw [h]) else isFalse (fun h1 => h (Except.error.inj h1))
  | Except.ok _, Except.error _ => isFalse (fun h => Except.noConfusion h)
  | Except.error _, Except.ok _ => isFalse (fun h => Except.noConfusion h)

/-- The type `shared_ptr<TObject const>`: empty, or a reference to an object. -/
abbrev shared_ptr (TObject : Type) : Type := Option TObject

/-- Conversion of a `shared_ptr` to `bool`: true exactly when it is not empty. -/
def shared_ptr.toBool {TObject : Type} (p : shared_ptr TObject) : Bool :=
  match p with
  | none => false
  | some _ => true

/-- The arrow operator `p->`: the object referred to; a fault on the empty pointer. -/
def shared_ptr.arrow {TObject : Type} (p : shared_ptr TObject) : Except Fault TObject :=
  match p with
  | none => Except.error Fault.null_dereference
  | some a => Except.ok a

/-- The requirement of the template on `TObject`: a member `id()` whose results
can be compared with `==`. -/
class HasId (TObject : Type) (IdT : outParam Type) where
  /-- The member function `id()`. -/
  id : TObject → IdT

/-- The class `EntityTracker<TObject>`: its two private members. -/
structure EntityTracker (TObject : Type) where
  /-- Pointer to the previous entity. -/
  m_prev : shared_ptr TObject
  /-- Pointer to the current entity. -/
  m_cur : shared_ptr TObject
  deriving DecidableEq

namespace EntityTracker

variable {TObject IdT : Type}

/-- The implicit default constructor: both members are default-constructed
`shared_ptr`s, which are empty. -/
def fresh : EntityTracker TObject :=
  { m_prev := none, m_cur := none }

/-- The member `prev()`: `return m_prev;`. -/
def prev (t : EntityTracker TObject) : shared_ptr TObject :=
  t.m_prev

/-- The member `cur()`: `return m_cur;`. -/
def cur (t : EntityTracker TObject) : shared_ptr TObject :=
  t.m_cur

/-- The member `has_prev()`: `return m_prev;` converted to `bool`. -/
def has_prev (t : EntityTracker TObject) : Bool :=
  shared_ptr.toBool t.m_prev

/-- The member `has_cur()`: `return m_cur;` converted to `bool`. -/
def has_cur (t : EntityTracker TObject) : Bool :=
  shared_ptr.toBool t.m_cur

/-- The member `cur_is_same_entity()`:
`return has_prev() && has_cur() && (prev()->id() == cur()->id());`
with the short-circuit evaluation of `&&`: the pointers are dereferenced only
when both tests were true. -/
def cur_is_same_entity [HasId TObject IdT] [DecidableEq IdT]
    (t : EntityTracker TObject) : Except Fault Bool :=
  if t.has_prev then
    if t.has_cur then do
      let p ← shared_ptr.arrow t.prev
      let c ← shared_ptr.arrow t.cur
      pure (decide (HasId.id p = HasId.id c))
    else
      pure false
  else
    pure false

/-- The member `feed(obj)`: `assert(!m_cur); m_cur = obj;`. -/
def feed (t : EntityTracker TObject) (obj : shared_ptr TObject) :
    Except Fault (EntityTracker TObject) :=
  if !shared_ptr.toBool t.m_cur then
    Except.ok { t with m_cur := obj }
  else
    Except.error Fault.assertion_failed

/-- The member `swap()`: `m_prev = m_cur; m_cur.reset();`. -/
def swap (t : EntityTracker TObject) : EntityTracker TObject :=
  let t1 := { t with m_prev := t.m_cur }
  { t1 with m_cur := none }

end EntityTracker

/-- The four classes of tracker states named by the specification. -/
inductive TrackerState where
  | EMPTY
  | HAS_PREV_ONLY
  | HAS_CUR_ONLY
  | HAS_BOTH
  deriving DecidableEq

/-- The class of a tracker state, read off `has_prev()` and `has_cur()`. -/
def classify {TObject : Type} (t : EntityTracker TObject) : TrackerState :=
  match t.has_prev, t.has_cur with
  | false, false => TrackerState.EMPTY
  | true, false => TrackerState.HAS_PREV_ONLY
  | false, true => TrackerState.HAS_CUR_ONLY
  | true, true => TrackerState.HAS_BOTH

/-- The transition table of `feed` as the specification words it:
EMPTY to HAS_CUR_ONLY, HAS_PREV_ONLY to HAS_BOTH, fatal from HAS_CUR_ONLY and
from HAS_BOTH. -/
def specFeedTable : TrackerState → Except Fault TrackerState
  | TrackerState.EMPTY => Except.ok TrackerState.HAS_CUR_ONLY
  | TrackerState.HAS_PREV_ONLY => Except.ok TrackerState.HAS_BOTH
  | TrackerState.HAS_CUR_ONLY => Except.error Fault.assertion_failed
  | TrackerState.HAS_BOTH => Except.error Fault.assertion_failed

/-- The transition table of `swap` as the specification words it:
HAS_CUR_ONLY to HAS_PREV_ONLY, HAS_BOTH to HAS_PREV_ONLY, HAS_PREV_ONLY to
EMPTY, EMPTY to EMPTY. -/
def specSwapTable : TrackerState → TrackerState
  | TrackerState.HAS_CUR_ONLY => TrackerState.HAS_PREV_ONLY
  | TrackerState.HAS_BOTH => TrackerState.HAS_PREV_ONLY
  | TrackerState.HAS_PREV_ONLY => TrackerState.EMPTY
  | TrackerState.EMPTY => TrackerState.EMPTY

/-- A sample entity type for closed instances: an object with an id and a
version, as the nodes, ways and relations of a history file have. -/
structure Entity where
  id : Int
  version : Nat
  deriving DecidableEq

instance : HasId Entity Int where
  id := Entity.id

/-- Sample snapshot A: entity 1, version 1. -/
def entA : Entity := { id := 1, version := 1 }

/-- Sample snapshot B: entity 1, version 2. -/
def entB : Entity := { id := 1, version := 2 }

/-- Sample snapshot C: entity 2, version 1. -/
def entC : Entity := { id := 2, version := 1 }

/-! ## Calls and call sequences

The member functions are not declared `const`, so a call is modelled once more
as a step on the tracker state: it returns a value and the state it leaves
behind, or a fault.  `cur_is_same_entity()` itself calls `has_prev()`,
`has_cur()`, `prev()` and `cur()`; the state is threaded through these calls
in the order of the short-circuit evaluation. -/

/-- A call of a public member function, with its argument. -/
inductive Call (TObject : Type) where
  | prev
  | cur
  | has_prev
  | has_cur
  | cur_is_same_entity
  | feed (obj : shared_ptr TObject)
  | swap
  deriving DecidableEq

/-- The value returned by a call: a pointer, a `bool`, or nothing (`void`). -/
inductive Value (TObject : Type) where
  | ptr (p : shared_ptr TObject)
  | bool (b : Bool)
  | void
  deriving DecidableEq

/-- The calls of `feed`. -/
def Call.isFeed {TObject : Type} : Call TObject → Bool
  | Call.feed _ => true
  | _ => false

/-- The calls that assign to a member: `feed` and `swap`. -/
def Call.isMutating {TObject : Type} : Call TObject → Bool
  | Call.feed _ => true
  | Call.swap => true
  | _ => false

namespace EntityTracker

variable {TObject IdT : Type}

/-- The call `prev()` as a step: the value `m_prev`, no assignment. -/
def call_prev (t : EntityTracker TObject) :
    Except Fault (shared_ptr TObject × EntityTracker TObject) :=
  Except.ok (t.m_prev, t)

/-- The call `cur()` as a step: the value `m_cur`, no assignment. -/
def call_cur (t : EntityTracker TObject) :
    Except Fault (shared_ptr TObject × EntityTracker TObject) :=
  Except.ok (t.m_cur, t)

/-- The call `has_prev()` as a step: `m_prev` converted to `bool`, no assignment. -/
def call_has_prev (t : EntityTracker TObject) :
    Except Fault (Bool × EntityTracker TObject) :=
  Except.ok (shared_ptr.toBool t.m_prev, t)

/-- The call `has_cur()` as a step: `m_cur` converted to `bool`, no assignment. -/
def call_has_cur (t : EntityTracker TObject) :
    Except Fault (Bool × EntityTracker TObject) :=
  Except.ok (shared_ptr.toBool t.m_cur, t)

/-- The call `cur_is_same_entity()` as a step:
`has_prev() && has_cur() && (prev()->id() == cur()->id())`, each nested call
made on the state the one before it left. -/
def call_cur_is_same_entity [HasId TObject IdT] [DecidableEq IdT]
    (t : EntityTracker TObject) : Except Fault (Bool × EntityTracker TObject) := do
  let (hp, t1) ← call_has_prev t
  if hp then
    let (hc, t2) ← call_has_cur t1
    if hc then
      let (p, t3) ← call_prev t2
      let a ← shared_ptr.arrow p
      let (c, t4) ← call_cur t3
      let b ← shared_ptr.arrow c
      pure (decide (HasId.id a = HasId.id b), t4)
    else
      pure (false, t2)
  else
    pure (false, t1)

/-- One call on a tracker: the value returned and the state afterwards. -/
def exec [HasId TObject IdT] [DecidableEq IdT] (c : Call TObject)
    (t : EntityTracker TObject) : Except Fault (Value TObject × EntityTracker TObject) :=
  match c with
  | Call.prev => (call_prev t).map (fun r => (Value.ptr r.1, r.2))
  | Call.cur => (call_cur t).map (fun r => (Value.ptr r.1, r.2))
  | Call.has_prev => (call_has_prev t).map (fun r => (Value.bool r.1, r.2))
  | Call.has_cur => (call_has_cur t).map (fun r => (Value.bool r.1, r.2))
  | Call.cur_is_same_entity => (call_cur_is_same_entity t).map (fun r => (Value.bool r.1, r.2))
  | Call.feed obj => (t.feed obj).map (fun t1 => (Value.void, t1))
  | Call.swap => Except.ok (Value.void, t.swap)

/-- A sequence of calls on a tracker, first call first; the first fault ends
the run. -/
def run [HasId TObject IdT] [DecidableEq IdT] :
    List (Call TObject) → EntityTracker TObject → Except Fault (EntityTracker TObject)
  | [], t => Except.ok t
  | c :: cs, t =>
    match exec c t with
    | Except.ok r => run cs r.2
    | Except.error e => Except.error e

end EntityTracker

/-- The mutating calls of a sequence, in order. -/
def mutatingCalls {TObject : Type} (cs : List (Call TObject)) : List (Call TObject) :=
  cs.filter Call.isMutating

/-- The scan of a list of snapshots `x1, ..., xn`:
`feed(x1), swap(), feed(x2), swap(), ..., feed(xn)`. -/
def scanCalls {TObject : Type} : List TObject → List (Call TObject)
  | [] => []
  | [x] => [Call.feed (some x)]
  | x :: y :: rest => Call.feed (some x) :: Call.swap :: scanCalls (y :: rest)

/-- A sample call sequence that keeps the protocol: every `feed` but the first
comes directly after a `swap()` among the mutating calls. -/
def sampleCalls : List (Call Entity) :=
  [Call.feed (some entA), Call.has_cur, Call.swap, Call.feed (some entB),
    Call.cur_is_same_entity, Call.swap, Call.swap, Call.feed (some entC)]

/-! ## Helper facts about the model -/

namespace EntityTracker

variable {TObject IdT : Type}

theorem toBool_eq_true_iff (p : shared_ptr TObject) :
    shared_ptr.toBool p = true ↔ ∃ a, p = some a := by
  cases p <;> simp [shared_ptr.toBool]

theorem toBool_eq_false_iff (p : shared_ptr TObject) :
    shared_ptr.toBool p = false ↔ p = none := by
  cases p <;> simp [shared_ptr.toBool]

theorem feed_of_has_cur_false (t : EntityTracker TObject) (obj : shared_ptr TObject)
    (h : t.has_cur = false) : t.feed obj = Except.ok { t with m_cur := obj } := by
  unfold has_cur at h
  simp [feed, h]

theorem feed_of_has_cur_true (t : EntityTracker TObject) (obj : shared_ptr TObject)
    (h : t.has_cur = true) : t.feed obj = Except.error Fault.assertion_failed := by
  unfold has_cur at h
  simp [feed, h]

theorem call_cur_is_same_entity_eq [HasId TObject IdT] [DecidableEq IdT]
    (t : EntityTracker TObject) :
    call_cur_is_same_entity t = (cur_is_same_entity t).map (fun b => (b, t)) := by
  obtain ⟨mp, mc⟩ := t
  cases mp <;> cases mc <;> rfl

theorem cur_is_same_entity_ok [HasId TObject IdT] [DecidableEq IdT]
    (t : EntityTracker TObject) : ∃ b, cur_is_same_entity t = Except.ok b := by
  obtain ⟨mp, mc⟩ := t
  cases mp <;> cases mc <;> exact ⟨_, rfl⟩

theorem exec_of_not_mutating [HasId TObject IdT] [DecidableEq IdT]
    (c : Call TObject) (t : EntityTracker TObject) (h : c.isMutating = false) :
    ∃ v, exec c t = Except.ok (v, t) := by
  cases c with
  | prev => exact ⟨_, rfl⟩
  | cur => exact ⟨_, rfl⟩
  | has_prev => exact ⟨_, rfl⟩
  | has_cur => exact ⟨_, rfl⟩
  | cur_is_same_entity =>
    obtain ⟨b, hb⟩ := cur_is_same_entity_ok t
    refine ⟨Value.bool b, ?_⟩
    simp only [exec, call_cur_is_same_entity_eq, hb]
    rfl
  | feed obj => simp [Call.isMutating] at h
  | swap => simp [Call.isMutating] at h

theorem exec_feed_of_has_cur_false [HasId TObject IdT] [DecidableEq IdT]
    (t : EntityTracker TObject) (obj : shared_ptr TObject) (h : t.has_cur = false) :
    exec (Call.feed obj) t = Except.ok (Value.void, { t with m_cur := obj }) := by
  simp only [exec, feed_of_has_cur_false t obj h]
  rfl

theorem run_cons_of_exec [HasId TObject IdT] [DecidableEq IdT]
    (c : Call TObject) (cs : List (Call TObject)) (t u : EntityTracker TObject)
    (v : Value TObject) (h : exec c t = Except.ok (v, u)) :
    run (c :: cs) t = run cs u := by
  simp only [run, h]

theorem run_append [HasId TObject IdT] [DecidableEq IdT]
    (cs ds : List (Call TObject)) (t : EntityTracker TObject) :
    run (cs ++ ds) t =
      match run cs t with
      | Except.ok u => run ds u
      | Except.error e => Except.error e := by
  induction cs generalizing t with
  | nil => rfl
  | cons c cs ih =>
    simp only [List.cons_append, run]
    cases exec c t with
    | error e => rfl
    | ok r => exact ih r.2

theorem run_singleton [HasId TObject IdT] [DecidableEq IdT]
    (c : Call TObject) (t : EntityTracker TObject) :
    run [c] t = (exec c t).map (fun r => r.2) := by
  simp only [run]
  cases exec c t <;> rfl

theorem mutatingCalls_append (cs ds : List (Call TObject)) :
    mutatingCalls (cs ++ ds) = mutatingCalls cs ++ mutatingCalls ds := by
  simp [mutatingCalls]

theorem last_mutating_of_has_cur [HasId TObject IdT] [DecidableEq IdT]
    (cs : List (Call TObject)) (t u : EntityTracker TObject)
    (h : run cs t = Except.ok u) (hu : u.has_cur = true) :
    (∃ a, (mutatingCalls cs).getLast? = some (Call.feed (some a)) ∧ u.cur = some a) ∨
      (mutatingCalls cs = [] ∧ u = t) := by
  induction cs using List.reverseRecOn generalizing u with
  | nil =>
    right
    simp only [run] at h
    cases h
    exact ⟨rfl, rfl⟩
  | append_singleton l c ih =>
    rw [run_append] at h
    cases hl : run l t with
    | error e => rw [hl] at h; cases h
    | ok w =>
      rw [hl] at h
      simp only [run_singleton] at h
      cases hm : c.isMutating with
      | false =>
        obtain ⟨v, hv⟩ := exec_of_not_mutating c w hm
        rw [hv] at h
        cases h
        have hnil : mutatingCalls [c] = [] := by simp [mutatingCalls, hm]
        rw [mutatingCalls_append, hnil, List.append_nil]
        exact ih w hl hu
      | true =>
        cases c with
        | swap =>
          cases h
          cases hu
        | feed obj =>
          cases hc : w.has_cur with
          | true =>
            rw [exec, feed_of_has_cur_true w obj hc] at h
            cases h
          | false =>
            rw [exec_feed_of_has_cur_false w obj hc] at h
            cases h
            left
            cases obj with
            | none => cases hu
            | some a =>
              refine ⟨a, ?_, rfl⟩
              rw [mutatingCalls_append]
              simp [mutatingCalls, Call.isMutating]
        | prev => cases hm
        | cur => cases hm
        | has_prev => cases hm
        | has_cur => cases hm
        | cur_is_same_entity => cases hm

theorem run_ok_of_no_adjacent_feeds [HasId TObject IdT] [DecidableEq IdT]
    (cs : List (Call TObject)) (t : EntityTracker TObject)
    (hc : List.Chain' (fun c d : Call TObject => ¬ (c.isFeed = true ∧ d.isFeed = true))
      (mutatingCalls cs))
    (ht : t.has_cur = true → ∀ c ∈ (mutatingCalls cs).head?, c.isFeed = false) :
    ∃ u, run cs t = Except.ok u := by
  induction cs generalizing t with
  | nil => exact ⟨t, rfl⟩
  | cons c cs ih =>
    cases hm : c.isMutating with
    | false =>
      have hcons : mutatingCalls (c :: cs) = mutatingCalls cs := by
        simp [mutatingCalls, hm]
      rw [hcons] at hc ht
      obtain ⟨v, hv⟩ := exec_of_not_mutating c t hm
      rw [run_cons_of_exec c cs t t v hv]
      exact ih t hc ht
    | true =>
      have hcons : mutatingCalls (c :: cs) = c :: mutatingCalls cs := by
        simp [mutatingCalls, hm]
      rw [hcons] at hc ht
      cases c with
      | swap =>
        rw [run_cons_of_exec Call.swap cs t t.swap Value.void rfl]
        exact ih t.swap hc.tail (fun h1 => by cases h1)
      | feed obj =>
        have hcur : t.has_cur = false := by
          cases hcur : t.has_cur with
          | false => rfl
          | true =>
            have := ht hcur (Call.feed obj) (by simp)
            simp [Call.isFeed] at this
        rw [run_cons_of_exec (Call.feed obj) cs t _ Value.void
          (exec_feed_of_has_cur_false t obj hcur)]
        refine ih _ hc.tail (fun _ d hd => ?_)
        have hrel := hc.rel_head? hd
        cases hdf : d.isFeed with
        | false => rfl
        | true => exact absurd ⟨rfl, hdf⟩ hrel
      | prev => cases hm
      | cur => cases hm
      | has_prev => cases hm
      | has_cur => cases hm
      | cur_is_same_entity => cases hm

theorem run_scanCalls [HasId TObject IdT] [DecidableEq IdT]
    (xs : List TObject) (x : TObject) (t : EntityTracker TObject) (h : t.has_cur = false) :
    run (scanCalls (x :: xs)) t =
      Except.ok { m_prev := ((x :: xs).dropLast.getLast?).or t.m_prev,
                  m_cur := (x :: xs).getLast? } := by
  induction xs generalizing x t with
  | nil =>
    simp only [scanCalls]
    rw [run_cons_of_exec _ [] t _ Value.void (exec_feed_of_has_cur_false t (some x) h)]
    simp [run]
  | cons y rest ih =>
    simp only [scanCalls]
    rw [run_cons_of_exec _ _ t _ Value.void (exec_feed_of_has_cur_false t (some x) h)]
    rw [run_cons_of_exec Call.swap _ _ _ Value.void rfl]
    rw [ih y (swap { t with m_cur := some x }) rfl]
    cases rest with
    | nil => simp [swap]
    | cons z zs =>
      have hne : ∀ l : List TObject, ∃ w, (y :: l).getLast? = some w :=
        fun l => ⟨_, List.getLast?_eq_getLast _ (List.cons_ne_nil y l)⟩
      obtain ⟨w, hw⟩ := hne (z :: zs).dropLast
      simp [swap, List.getLast?_cons_cons, hw]

theorem chain_of_getElem? {α : Type} (R : α → α → Prop) (l : List α)
    (h : ∀ k a b, l[k]? = some a → l[k + 1]? = some b → R a b) : List.Chain' R l := by
  induction l with
  | nil => exact List.chain'_nil
  | cons a l ih =>
    cases l with
    | nil => exact List.chain'_singleton a
    | cons b l =>
      rw [List.chain'_cons]
      refine ⟨h 0 a b (by simp) (by simp), ih (fun k c d hc hd => h (k + 1) c d ?_ ?_)⟩
      · simpa using hc
      · simpa using hd

end EntityTracker

/-! ## The claims -/

namespace EntityTracker

variable {TObject IdT : Type}

/-- C1: for every tracker state and every pointer `obj`, `feed(obj)` aborts on
its assertion if and only if `has_cur()` is true at the call, and it returns
normally if and only if the current slot is empty. -/
theorem feed_fails_iff_has_cur (t : EntityTracker TObject) (obj : shared_ptr TObject) :
    (t.feed obj = Except.error Fault.assertion_failed ↔ t.has_cur = true) ∧
    ((∃ t1, t.feed obj = Except.ok t1) ↔ t.has_cur = false) := by
  cases h : t.has_cur
  · simp [feed_of_has_cur_false t obj h]
  · simp [feed_of_has_cur_true t obj h]

/-- C2: for every snapshot `a` and every tracker whose current slot is empty,
`feed(a)` returns normally and afterwards `has_cur()` is true, `cur()` is the
reference to `a`, and `has_prev()` has the value it had before the call. -/
theorem feed_sets_cur (t : EntityTracker TObject) (a : TObject)
    (h : t.has_cur = false) :
    ∃ t1, t.feed (some a) = Except.ok t1 ∧
      t1.has_cur = true ∧ t1.cur = some a ∧ t1.has_prev = t.has_prev := by
  refine ⟨{ t with m_cur := some a }, feed_of_has_cur_false t (some a) h, ?_, ?_, ?_⟩
  · simp [has_cur, shared_ptr.toBool]
  · simp [cur]
  · simp [has_prev]

/-- The witness of C2: a tracker that holds snapshot A as previous entity is
fed snapshot B. -/
theorem feed_sets_cur_witness :
    (EntityTracker.mk (some entA) none).has_cur = false ∧
    ∃ t1, (EntityTracker.mk (some entA) none).feed (some entB) = Except.ok t1 ∧
      t1.has_cur = true ∧ t1.cur = some entB ∧
      t1.has_prev = (EntityTracker.mk (some entA) none).has_prev :=
  ⟨by decide, feed_sets_cur (EntityTracker.mk (some entA) none) entB (by decide)⟩

/-- C3: for every tracker state, also one whose current slot is empty, `swap()`
returns a state in which `prev()` is what `cur()` was before the call and
`cur()` is empty; the result does not depend on what the previous slot held,
so its old content is no longer tracked. -/
theorem swap_moves_cur_to_prev (t : EntityTracker TObject) :
    t.swap.prev = t.cur ∧ t.swap.cur = none ∧
    ∀ p : shared_ptr TObject, ({ t with m_prev := p } : EntityTracker TObject).swap = t.swap := by
  refine ⟨rfl, rfl, fun p => rfl⟩

/-- C4: for every tracker state, `cur_is_same_entity()` returns normally; it
returns true if and only if both slots are populated and the `id()` of the
previous snapshot equals the `id()` of the current one, and it returns false
whenever `has_prev()` or `has_cur()` is false. -/
theorem cur_is_same_entity_iff [HasId TObject IdT] [DecidableEq IdT]
    (t : EntityTracker TObject) :
    (∃ b, t.cur_is_same_entity = Except.ok b) ∧
    (t.cur_is_same_entity = Except.ok true ↔
      t.has_prev = true ∧ t.has_cur = true ∧
        ∃ p c, t.prev = some p ∧ t.cur = some c ∧ HasId.id p = HasId.id c) ∧
    (t.has_prev = false ∨ t.has_cur = false → t.cur_is_same_entity = Except.ok false) := by
  obtain ⟨mp, mc⟩ := t
  cases mp <;> cases mc <;>
    simp [cur_is_same_entity, has_prev, has_cur, prev, cur, shared_ptr.toBool,
      shared_ptr.arrow, bind, Except.bind, pure, Except.pure]

/-- The witness of C4: with an empty current slot the answer is false, though
the previous slot is populated. -/
theorem cur_is_same_entity_iff_witness :
    ((EntityTracker.mk (some entA) none).has_prev = false ∨
      (EntityTracker.mk (some entA) none).has_cur = false) ∧
    (EntityTracker.mk (some entA) none).cur_is_same_entity = Except.ok false :=
  ⟨Or.inr (by decide),
    (cur_is_same_entity_iff (EntityTracker.mk (some entA) none)).2.2 (Or.inr (by decide))⟩

/-- C5: for every tracker whose current slot is empty and every pointer `obj`,
so in particular the reference to any snapshot `a`: `feed(obj)` followed by
`swap()` returns normally, and then `prev()` is `obj` and `has_cur()` is
false. -/
theorem feed_then_swap (t : EntityTracker TObject) (obj : shared_ptr TObject)
    (h : t.has_cur = false) :
    ∃ t1, t.feed obj = Except.ok t1 ∧ t1.swap.prev = obj ∧ t1.swap.has_cur = false := by
  refine ⟨{ t with m_cur := obj }, feed_of_has_cur_false t obj h, rfl, rfl⟩

/-- The witness of C5: snapshot A is fed to a fresh tracker and swapped. -/
theorem feed_then_swap_witness :
    (fresh : EntityTracker Entity).has_cur = false ∧
    ∃ t1, (fresh : EntityTracker Entity).feed (some entA) = Except.ok t1 ∧
      t1.swap.prev = some entA ∧ t1.swap.has_cur = false :=
  ⟨by decide, feed_then_swap fresh (some entA) (by decide)⟩

/-- C6: for every snapshot `a` and every tracker state from which `feed(a)`
returns normally, a second `feed(a)` with no `swap()` in between aborts on the
assertion. -/
theorem feed_twice_fails (t t1 : EntityTracker TObject) (a : TObject)
    (h : t.feed (some a) = Except.ok t1) :
    t1.feed (some a) = Except.error Fault.assertion_failed := by
  apply feed_of_has_cur_true
  cases hc : t.has_cur
  · rw [feed_of_has_cur_false t (some a) hc] at h
    cases h
    rfl
  · rw [feed_of_has_cur_true t (some a) hc] at h
    cases h

/-- The witness of C6: snapshot A is fed twice to a fresh tracker. -/
theorem feed_twice_fails_witness :
    (fresh : EntityTracker Entity).feed (some entA) = Except.ok (EntityTracker.mk none (some entA)) ∧
    (EntityTracker.mk none (some entA)).feed (some entA) = Except.error Fault.assertion_failed :=
  ⟨by decide, feed_twice_fails fresh (EntityTracker.mk none (some entA)) entA (by decide)⟩

/-- C7: for every tracker state, two `swap()` calls in a row leave both slots
empty: `has_prev()` and `has_cur()` are false; in particular `feed(A)`,
`swap()`, `swap()` on a fresh tracker returns normally and ends with
`has_prev()` false. -/
theorem swap_twice_empties (t : EntityTracker TObject) :
    t.swap.swap.has_prev = false ∧ t.swap.swap.has_cur = false ∧
    ∀ A : shared_ptr TObject,
      ∃ t1, (fresh : EntityTracker TObject).feed A = Except.ok t1 ∧
        t1.swap.swap.has_prev = false :=
  ⟨rfl, rfl, fun A => ⟨{ (fresh : EntityTracker TObject) with m_cur := A },
    feed_of_has_cur_false fresh A rfl, rfl⟩⟩

/-- C8: for all snapshots `a` and `b` and every tracker whose current slot is
empty, the calls `feed(a)`, `swap()`, `feed(b)` return normally, and
`cur_is_same_entity()` then returns true exactly when `a.id()` equals
`b.id()`. -/
theorem same_entity_after_two_feeds [HasId TObject IdT] [DecidableEq IdT]
    (t : EntityTracker TObject) (a b : TObject) (h : t.has_cur = false) :
    ∃ t1 t2 r, t.feed (some a) = Except.ok t1 ∧ t1.swap.feed (some b) = Except.ok t2 ∧
      t2.cur_is_same_entity = Except.ok r ∧ (r = true ↔ HasId.id a = HasId.id b) := by
  refine ⟨{ t with m_cur := some a }, { m_prev := some a, m_cur := some b },
    decide (HasId.id a = HasId.id b), feed_of_has_cur_false t (some a) h, ?_, ?_, ?_⟩
  · exact feed_of_has_cur_false _ (some b) rfl
  · simp [cur_is_same_entity, has_prev, has_cur, prev, cur, shared_ptr.toBool,
      shared_ptr.arrow, bind, Except.bind, pure, Except.pure]
  · simp

/-- The witness of C8, the two-step scenario: on a fresh tracker `feed(A)`,
`swap()`, `feed(B)` with both ids 1 gives true; then `swap()`, `feed(C)` with
id 2 gives false. -/
theorem same_entity_after_two_feeds_witness :
    ((fresh : EntityTracker Entity).has_cur = false ∧
      ∃ t1 t2 r, (fresh : EntityTracker Entity).feed (some entA) = Except.ok t1 ∧
        t1.swap.feed (some entB) = Except.ok t2 ∧
        t2.cur_is_same_entity = Except.ok r ∧ (r = true ↔ entA.id = entB.id)) ∧
    ((EntityTracker.mk (some entA) none).has_cur = false ∧
      ∃ t1 t2 r, (EntityTracker.mk (some entA) none).feed (some entB) = Except.ok t1 ∧
        t1.swap.feed (some entC) = Except.ok t2 ∧
        t2.cur_is_same_entity = Except.ok r ∧ (r = true ↔ entB.id = entC.id)) ∧
    (EntityTracker.mk (some entA) (some entB)).cur_is_same_entity = Except.ok true ∧
    (EntityTracker.mk (some entB) (some entC)).cur_is_same_entity = Except.ok false :=
  ⟨⟨by decide, same_entity_after_two_feeds fresh entA entB (by decide)⟩,
    ⟨by decide,
      same_entity_after_two_feeds (EntityTracker.mk (some entA) none) entB entC (by decide)⟩,
    by decide, by decide⟩

/-- C9: a freshly constructed tracker has both slots empty: `has_prev()` and
`has_cur()` are false, and `prev()` and `cur()` return the empty pointer. -/
theorem fresh_is_empty :
    (fresh : EntityTracker TObject).has_prev = false ∧
    (fresh : EntityTracker TObject).has_cur = false ∧
    (fresh : EntityTracker TObject).prev = none ∧
    (fresh : EntityTracker TObject).cur = none :=
  ⟨rfl, rfl, rfl, rfl⟩

/-- C10, as amended: with tracker states classified by `has_prev()` and
`has_cur()`, the steps of `feed` of a non-empty pointer (a snapshot) and of
`swap` are exactly the rows of the stated table: the class after a step, or
the abort, is the table entry of the class before it; `feed` of the empty
pointer aborts from the same classes as the table says, HAS_CUR_ONLY and
HAS_BOTH, and from EMPTY and HAS_PREV_ONLY it returns and leaves the class as
it was; each of the four classes is the class of some state, so no row is
idle. -/
theorem transitions_match_table (t : EntityTracker TObject) (a : TObject) :
    (t.feed (some a)).map classify = specFeedTable (classify t) ∧
    classify t.swap = specSwapTable (classify t) ∧
    (t.feed none).map classify = (specFeedTable (classify t)).map (fun _ => classify t) ∧
    ∀ s : TrackerState, ∃ u : EntityTracker TObject, classify u = s := by
  refine ⟨?_, ?_, ?_, ?_⟩
  · obtain ⟨mp, mc⟩ := t
    cases mp <;> cases mc <;> rfl
  · obtain ⟨mp, mc⟩ := t
    cases mp <;> cases mc <;> rfl
  · obtain ⟨mp, mc⟩ := t
    cases mp <;> cases mc <;> rfl
  · intro s
    cases s
    · exact ⟨⟨none, none⟩, rfl⟩
    · exact ⟨⟨some a, none⟩, rfl⟩
    · exact ⟨⟨none, some a⟩, rfl⟩
    · exact ⟨⟨some a, some a⟩, rfl⟩

/-- C10 as stated fails: the step relation of `feed` is not the stated table
for every argument.  On a fresh tracker, of class EMPTY, `feed` of the empty
pointer returns normally and the class afterwards is still EMPTY, where the
table has HAS_CUR_ONLY; likewise a tracker of class HAS_PREV_ONLY stays in
HAS_PREV_ONLY, where the table has HAS_BOTH. -/
theorem feed_null_not_in_table :
    classify (fresh : EntityTracker Entity) = TrackerState.EMPTY ∧
    ((fresh : EntityTracker Entity).feed none).map classify =
      Except.ok TrackerState.EMPTY ∧
    specFeedTable (classify (fresh : EntityTracker Entity)) =
      Except.ok TrackerState.HAS_CUR_ONLY ∧
    ((fresh : EntityTracker Entity).feed none).map classify ≠
      specFeedTable (classify (fresh : EntityTracker Entity)) ∧
    ((EntityTracker.mk (some entA) none).feed none).map classify ≠
      specFeedTable (classify (EntityTracker.mk (some entA) none)) ∧
    ¬ ∀ (t : EntityTracker Entity) (obj : shared_ptr Entity),
      (t.feed obj).map classify = specFeedTable (classify t) :=
  ⟨by decide, by decide, by decide, by decide, by decide,
    fun h => absurd (h fresh none) (by decide)⟩

/-- C11: the accessors have no side effects: for every tracker state, the
calls `prev()`, `cur()`, `has_prev()`, `has_cur()` and `cur_is_same_entity()`
return normally and leave both slots as they were; `prev()` returns the
content of the previous slot and `cur()` that of the current slot. -/
theorem accessors_leave_state [HasId TObject IdT] [DecidableEq IdT]
    (t : EntityTracker TObject) :
    call_prev t = Except.ok (t.m_prev, t) ∧
    call_cur t = Except.ok (t.m_cur, t) ∧
    (∃ b, call_has_prev t = Except.ok (b, t)) ∧
    (∃ b, call_has_cur t = Except.ok (b, t)) ∧
    (∃ b, call_cur_is_same_entity t = Except.ok (b, t)) ∧
    ∀ (c : Call TObject) (v : Value TObject) (u : EntityTracker TObject),
      c.isMutating = false → exec c t = Except.ok (v, u) →
        u.m_prev = t.m_prev ∧ u.m_cur = t.m_cur := by
  refine ⟨rfl, rfl, ⟨_, rfl⟩, ⟨_, rfl⟩, ?_, ?_⟩
  · obtain ⟨b, hb⟩ := cur_is_same_entity_ok t
    exact ⟨b, by rw [call_cur_is_same_entity_eq, hb]; rfl⟩
  · intro c v u hc he
    obtain ⟨w, hw⟩ := exec_of_not_mutating c t hc
    rw [hw] at he
    cases he
    exact ⟨rfl, rfl⟩

/-- The witness of C11: `cur_is_same_entity()` on a tracker that holds
snapshots A and B returns true and leaves A and B in their slots. -/
theorem accessors_leave_state_witness :
    (Call.cur_is_same_entity : Call Entity).isMutating = false ∧
    exec Call.cur_is_same_entity (EntityTracker.mk (some entA) (some entB)) =
      Except.ok (Value.bool true, EntityTracker.mk (some entA) (some entB)) ∧
    (EntityTracker.mk (some entA) (some entB)).m_prev = some entA ∧
    (EntityTracker.mk (some entA) (some entB)).m_cur = some entB :=
  ⟨by decide, by decide,
    (accessors_leave_state (EntityTracker.mk (some entA) (some entB))).2.2.2.2.2
      Call.cur_is_same_entity (Value.bool true) (EntityTracker.mk (some entA) (some entB))
      (by decide) (by decide)⟩

/-- C12: for every tracker state, `has_prev()` is true exactly when `prev()`
is not the empty pointer, and `has_cur()` is true exactly when `cur()` is not
the empty pointer. -/
theorem has_iff_nonempty (t : EntityTracker TObject) :
    (t.has_prev = true ↔ t.prev ≠ none) ∧ (t.has_cur = true ↔ t.cur ≠ none) := by
  obtain ⟨mp, mc⟩ := t
  cases mp <;> cases mc <;> simp [has_prev, has_cur, prev, cur, shared_ptr.toBool]

/-- C13: every operation other than `feed` is total: for every tracker state,
each call of `prev()`, `cur()`, `has_prev()`, `has_cur()`, `swap()` and
`cur_is_same_entity()` returns normally; in particular `cur_is_same_entity()`
never ends in the fault of dereferencing an empty pointer. -/
theorem non_feed_calls_total [HasId TObject IdT] [DecidableEq IdT]
    (c : Call TObject) (t : EntityTracker TObject) (h : c.isFeed = false) :
    (∃ v u, exec c t = Except.ok (v, u)) ∧
    t.cur_is_same_entity ≠ Except.error Fault.null_dereference ∧
    call_cur_is_same_entity t ≠ Except.error Fault.null_dereference := by
  obtain ⟨b, hb⟩ := cur_is_same_entity_ok t
  refine ⟨?_, ?_, ?_⟩
  · cases hm : c.isMutating
    · obtain ⟨v, hv⟩ := exec_of_not_mutating c t hm
      exact ⟨v, t, hv⟩
    · cases c with
      | swap => exact ⟨Value.void, t.swap, rfl⟩
      | feed obj => simp [Call.isFeed] at h
      | prev => simp [Call.isMutating] at hm
      | cur => simp [Call.isMutating] at hm
      | has_prev => simp [Call.isMutating] at hm
      | has_cur => simp [Call.isMutating] at hm
      | cur_is_same_entity => simp [Call.isMutating] at hm
  · rw [hb]
    exact fun h1 => Except.noConfusion h1
  · rw [call_cur_is_same_entity_eq, hb]
    exact fun h1 => Except.noConfusion h1

/-- The witness of C13: `cur_is_same_entity()` on a tracker with an empty
current slot returns normally. -/
theorem non_feed_calls_total_witness :
    (Call.cur_is_same_entity : Call Entity).isFeed = false ∧
    ((∃ v u, exec Call.cur_is_same_entity (EntityTracker.mk (some entA) none) =
      Except.ok (v, u)) ∧
    (EntityTracker.mk (some entA) none).cur_is_same_entity ≠
      Except.error Fault.null_dereference ∧
    call_cur_is_same_entity (EntityTracker.mk (some entA) none) ≠
      Except.error Fault.null_dereference) :=
  ⟨by decide,
    non_feed_calls_total Call.cur_is_same_entity (EntityTracker.mk (some entA) none)
      (by decide)⟩

/-- C14: the current slot is populated only by `feed`: for every tracker
state whose current slot is empty, every call other than `feed` (`swap()` and
the accessors) returns normally and leaves the current slot empty; hence, when
a sequence of calls on a fresh tracker has run without fault and ends in a
state with a populated current slot, the last mutating call of the sequence
was a `feed`, namely of the snapshot now in the current slot. -/
theorem cur_populated_only_by_feed [HasId TObject IdT] [DecidableEq IdT]
    (c : Call TObject) (t : EntityTracker TObject)
    (cs : List (Call TObject)) (u : EntityTracker TObject) :
    (t.has_cur = false → c.isFeed = false →
      ∃ v t1, exec c t = Except.ok (v, t1) ∧ t1.has_cur = false) ∧
    (run cs fresh = Except.ok u → u.has_cur = true →
      ∃ a, (mutatingCalls cs).getLast? = some (Call.feed (some a)) ∧ u.cur = some a) := by
  constructor
  · intro ht hc
    cases hm : c.isMutating with
    | false =>
      obtain ⟨v, hv⟩ := exec_of_not_mutating c t hm
      exact ⟨v, t, hv, ht⟩
    | true =>
      cases c with
      | swap => exact ⟨Value.void, t.swap, rfl, rfl⟩
      | feed obj => cases hc
      | prev => cases hm
      | cur => cases hm
      | has_prev => cases hm
      | has_cur => cases hm
      | cur_is_same_entity => cases hm
  · intro hr hu
    rcases last_mutating_of_has_cur cs fresh u hr hu with h1 | ⟨_, h2⟩
    · exact h1
    · rw [h2] at hu
      cases hu

/-- The witness of C14: `swap()` on a tracker with an empty current slot, and
the run `feed(A), swap(), feed(B), has_cur()` on a fresh tracker, whose last
mutating call is `feed(B)`. -/
theorem cur_populated_only_by_feed_witness :
    ((EntityTracker.mk (some entA) none).has_cur = false ∧
      (Call.swap : Call Entity).isFeed = false ∧
      ∃ v t1, exec Call.swap (EntityTracker.mk (some entA) none) = Except.ok (v, t1) ∧
        t1.has_cur = false) ∧
    (run [Call.feed (some entA), Call.swap, Call.feed (some entB), Call.has_cur] fresh =
        Except.ok (EntityTracker.mk (some entA) (some entB)) ∧
      (EntityTracker.mk (some entA) (some entB)).has_cur = true ∧
      ∃ a, (mutatingCalls
          [Call.feed (some entA), Call.swap, Call.feed (some entB), Call.has_cur]).getLast? =
          some (Call.feed (some a)) ∧
        (EntityTracker.mk (some entA) (some entB)).cur = some a) :=
  ⟨⟨by decide, by decide,
      (cur_populated_only_by_feed Call.swap (EntityTracker.mk (some entA) none) []
        fresh).1 (by decide) (by decide)⟩,
    ⟨by decide, by decide,
      (cur_populated_only_by_feed Call.swap (EntityTracker.mk (some entA) none)
        [Call.feed (some entA), Call.swap, Call.feed (some entB), Call.has_cur]
        (EntityTracker.mk (some entA) (some entB))).2 (by decide) (by decide)⟩⟩

/-- C15: sliding-window correctness: for every non-empty list `x1, ..., xn` of
snapshots, the run `feed(x1), swap(), feed(x2), swap(), ..., feed(xn)` on a
fresh tracker returns normally and ends with `cur()` the reference to `xn` and
`prev()` the reference to `x(n-1)`, the snapshot fed immediately before;
`prev()` is empty when `n = 1`. -/
theorem scan_keeps_last_two [HasId TObject IdT] [DecidableEq IdT] :
    (∀ x : TObject,
      run (scanCalls [x]) fresh = Except.ok { m_prev := none, m_cur := some x }) ∧
    (∀ (ys : List TObject) (y z : TObject),
      run (scanCalls (ys ++ [y, z])) fresh =
        Except.ok { m_prev := some y, m_cur := some z }) := by
  constructor
  · intro x
    rw [run_scanCalls [] x fresh rfl]
    rfl
  · intro ys y z
    cases ys with
    | nil =>
      rw [List.nil_append, run_scanCalls [z] y fresh rfl]
      rfl
    | cons x ys =>
      rw [List.cons_append, run_scanCalls (ys ++ [y, z]) x fresh rfl]
      have e : x :: (ys ++ [y, z]) = (x :: ys ++ [y]) ++ [z] := by simp
      rw [e, List.dropLast_concat, List.getLast?_concat, List.getLast?_concat]
      rfl

/-- C16: protocol safety: a sequence of calls in which, among the mutating
calls, every `feed` except the first is immediately preceded by a `swap()`,
runs on a fresh tracker without a fault, so the assertion of `feed` never
fails; and from every tracker state `feed` called directly after `swap()`
returns normally. -/
theorem guarded_feeds_never_abort [HasId TObject IdT] [DecidableEq IdT]
    (cs : List (Call TObject))
    (h : ∀ k obj, (mutatingCalls cs)[k + 1]? = some (Call.feed obj) →
      (∃ j obj1, j ≤ k ∧ (mutatingCalls cs)[j]? = some (Call.feed obj1)) →
      (mutatingCalls cs)[k]? = some Call.swap) :
    (∃ u, run cs fresh = Except.ok u) ∧
    ∀ (t : EntityTracker TObject) (obj : shared_ptr TObject),
      ∃ u, t.swap.feed obj = Except.ok u := by
  refine ⟨run_ok_of_no_adjacent_feeds cs fresh ?_ (fun h1 => by cases h1),
    fun t obj => ⟨_, feed_of_has_cur_false t.swap obj rfl⟩⟩
  apply chain_of_getElem?
  intro k a b ha hb hab
  obtain ⟨fa, fb⟩ := hab
  cases a with
  | feed o1 =>
    cases b with
    | feed o2 =>
      have hs := h k o2 hb ⟨k, o1, le_refl k, ha⟩
      rw [ha] at hs
      cases hs
    | swap => cases fb
    | prev => cases fb
    | cur => cases fb
    | has_prev => cases fb
    | has_cur => cases fb
    | cur_is_same_entity => cases fb
  | swap => cases fa
  | prev => cases fa
  | cur => cases fa
  | has_prev => cases fa
  | has_cur => cases fa
  | cur_is_same_entity => cases fa

/-- The witness of C16: the sample sequence `feed(A), has_cur(), swap(),
feed(B), cur_is_same_entity(), swap(), swap(), feed(C)` keeps the protocol and
runs on a fresh tracker without a fault. -/
theorem guarded_feeds_never_abort_witness :
    (∀ k obj, (mutatingCalls sampleCalls)[k + 1]? = some (Call.feed obj) →
      (∃ j obj1, j ≤ k ∧ (mutatingCalls sampleCalls)[j]? = some (Call.feed obj1)) →
      (mutatingCalls sampleCalls)[k]? = some Call.swap) ∧
    ((∃ u, run sampleCalls fresh = Except.ok u) ∧
      ∀ (t : EntityTracker Entity) (obj : shared_ptr Entity),
        ∃ u, t.swap.feed obj = Except.ok u) ∧
    run sampleCalls fresh = Except.ok (EntityTracker.mk none (some entC)) :=
  have hh : ∀ k obj, (mutatingCalls sampleCalls)[k + 1]? = some (Call.feed obj) →
      (∃ j obj1, j ≤ k ∧ (mutatingCalls sampleCalls)[j]? = some (Call.feed obj1)) →
      (mutatingCalls sampleCalls)[k]? = some Call.swap := by
    intro k obj h1 _
    rcases k with _ | _ | _ | _ | _ | k <;>
      simp [sampleCalls, mutatingCalls, Call.isMutating] at h1 ⊢
  ⟨hh, guarded_feeds_never_abort sampleCalls hh, by decide⟩

/-- C17: `feed` does not touch the previous slot: for every tracker state
whose current slot is empty and every pointer `obj`, `feed(obj)` returns
normally and `prev()` afterwards is the same pointer, or the same emptiness, as
`prev()` before the call. -/
theorem feed_keeps_prev (t : EntityTracker TObject) (obj : shared_ptr TObject)
    (h : t.has_cur = false) :
    ∃ t1, t.feed obj = Except.ok t1 ∧ t1.prev = t.prev :=
  ⟨{ t with m_cur := obj }, feed_of_has_cur_false t obj h, rfl⟩

/-- The witness of C17: a tracker that holds snapshot A as previous entity is
fed snapshot C. -/
theorem feed_keeps_prev_witness :
    (EntityTracker.mk (some entA) none).has_cur = false ∧
    ∃ t1, (EntityTracker.mk (some entA) none).feed (some entC) = Except.ok t1 ∧
      t1.prev = (EntityTracker.mk (some entA) none).prev :=
  ⟨by decide, feed_keeps_prev (EntityTracker.mk (some entA) none) (some entC) (by decide)⟩

/-- C18: `feed` accepts the empty pointer: for every tracker whose current slot
is empty, `feed` of the empty pointer returns normally and leaves the tracker
state unchanged, with `has_cur()` still false, so a second `feed`, of any
pointer and with no `swap()` in between, returns normally too. -/
theorem feed_null_accepted (t : EntityTracker TObject) (h : t.has_cur = false) :
    t.feed none = Except.ok t ∧ t.has_cur = false ∧
    ∀ obj : shared_ptr TObject,
      ∃ t2, (t.feed none >>= fun t1 => t1.feed obj) = Except.ok t2 := by
  have h0 : t.feed none = Except.ok t := by
    rw [feed_of_has_cur_false t none h]
    obtain ⟨mp, mc⟩ := t
    cases mc with
    | none => rfl
    | some a => simp [has_cur, shared_ptr.toBool] at h
  refine ⟨h0, h, fun obj => ⟨{ t with m_cur := obj }, ?_⟩⟩
  rw [h0]
  exact feed_of_has_cur_false t obj h

/-- The witness of C18: the empty pointer is fed to a tracker that holds
snapshot A as previous entity, and then snapshot B is fed. -/
theorem feed_null_accepted_witness :
    (EntityTracker.mk (some entA) none).has_cur = false ∧
    (EntityTracker.mk (some entA) none).feed none =
      Except.ok (EntityTracker.mk (some entA) none) ∧
    ((EntityTracker.mk (some entA) none).feed none >>= fun t1 => t1.feed (some entB)) =
      Except.ok (EntityTracker.mk (some entA) (some entB)) :=
  ⟨by decide, (feed_null_accepted (EntityTracker.mk (some entA) none) (by decide)).1,
    by decide⟩

end EntityTracker

end Importer
